import Mathlib

/-!
Verification of the fetch → extract → reconcile pipeline of the
genshin-wiki scraping backend, shallowly embedded from
`src/backend/src/scrapers/{base_scraper,character_scraper,weapon_scraper,data_storage}.py`
and `src/backend/src/api/scraper.py`.
-/

/-! ## Scraper configuration (`ScraperConfig` in base_scraper.py) -/

structure ScraperConfig where
  requests_per_second : ℚ
  min_delay_seconds : ℚ
  max_delay_seconds : ℚ
  max_retries : Nat
  retry_delay_seconds : ℚ
  retry_backoff_factor : ℚ
  timeout_seconds : Nat
  max_connections : Nat
  max_connections_per_host : Nat
  user_agents : List String
deriving DecidableEq

/-- Default values of `ScraperConfig` in base_scraper.py. -/
def defaultScraperConfig : ScraperConfig where
  requests_per_second := 1
  min_delay_seconds := 1
  max_delay_seconds := 3
  max_retries := 3
  retry_delay_seconds := 2
  retry_backoff_factor := 2
  timeout_seconds := 30
  max_connections := 10
  max_connections_per_host := 5
  user_agents :=
    [ "Mozilla/5.0 (Windows NT 10.0; Win64; x64) AppleWebKit/537.36 (KHTML, like Gecko) Chrome/120.0.0.0 Safari/537.36"
    , "Mozilla/5.0 (Macintosh; Intel Mac OS X 10_15_7) AppleWebKit/537.36 (KHTML, like Gecko) Chrome/120.0.0.0 Safari/537.36"
    , "Mozilla/5.0 (X11; Linux x86_64) AppleWebKit/537.36 (KHTML, like Gecko) Chrome/120.0.0.0 Safari/537.36"
    , "Mozilla/5.0 (Windows NT 10.0; Win64; x64; rv:121.0) Gecko/20100101 Firefox/121.0"
    , "Mozilla/5.0 (Macintosh; Intel Mac OS X 10.15; rv:121.0) Gecko/20100101 Firefox/121.0" ]

/-! ## Rate limiter (`BaseScraper._apply_rate_limit`)

The method sleeps only when a previous request exists and the elapsed
time since it is below `1 / requests_per_second`; in that case the sleep
is the remaining gap plus a `uniform(min_delay_seconds, max_delay_seconds)`
jitter draw, which we pass in as the `jitter` argument.  In every other
case the method falls through without sleeping.  The returned value is
the total seconds slept by this call. -/

def applyRateLimit (cfg : ScraperConfig) (lastRequestTime : Option ℚ)
    (now : ℚ) (jitter : ℚ) : ℚ :=
  match lastRequestTime with
  | none => 0
  | some t =>
    let elapsed := now - t
    let requiredDelay := 1 / cfg.requests_per_second
    if elapsed < requiredDelay then (requiredDelay - elapsed) + jitter else 0

/-! ## Fetch (`BaseScraper.fetch`)

`fetch` rate-limits once, builds the headers once (a single pseudo-random
`random.choice` draw from `user_agents`, passed in as `ua`), and then
runs a `for attempt in range(max_retries)` loop.  The outcome of each attempt
is supplied by the `outcome` oracle: a successful response returns its
body; an `aiohttp.ClientError` either sleeps
`retry_delay_seconds * retry_backoff_factor ^ attempt` and retries (when
attempts remain) or returns `None`; any other exception returns `None`
immediately.  The trace records the returned value, the number of loop
iterations entered, the number of `_apply_rate_limit` calls, the number
of `_get_random_user_agent` draws, the User-Agent header value sent on
each attempt, and the backoff sleeps performed. -/

inductive AttemptResult
  | success (body : String)
  | clientError
  | otherError
deriving DecidableEq

structure FetchTrace where
  result : Option String
  attempts : Nat
  rateLimitWaits : Nat
  uaDraws : Nat
  headers : List String
  backoffSleeps : List ℚ
deriving DecidableEq

def fetchLoop (cfg : ScraperConfig) (outcome : Nat → AttemptResult) (ua : String) :
    Nat → Nat → Option String × Nat × List String × List ℚ
  | 0, _ => (none, 0, [], [])
  | remaining + 1, idx =>
    match outcome idx with
    | .success body => (some body, 1, [ua], [])
    | .clientError =>
      if remaining = 0 then
        (none, 1, [ua], [])
      else
        let d := cfg.retry_delay_seconds * cfg.retry_backoff_factor ^ idx
        let rest := fetchLoop cfg outcome ua remaining (idx + 1)
        (rest.1, rest.2.1 + 1, ua :: rest.2.2.1, d :: rest.2.2.2)
    | .otherError => (none, 1, [ua], [])

def fetch (cfg : ScraperConfig) (ua : String) (outcome : Nat → AttemptResult) :
    FetchTrace :=
  let r := fetchLoop cfg outcome ua cfg.max_retries 0
  { result := r.1
    attempts := r.2.1
    -- `await self._apply_rate_limit()` appears exactly once, before the loop
    rateLimitWaits := 1
    -- `self._get_random_user_agent()` is called exactly once, in the header prep
    uaDraws := 1
    headers := r.2.2.1
    backoffSleeps := r.2.2.2 }

/-- On a permanently client-erroring locator, the loop makes exactly
`fuel` attempts, returns `none`, and sends the single `ua` draw on every
attempt. -/
theorem fetchLoop_allFail (cfg : ScraperConfig) (outcome : Nat → AttemptResult)
    (ua : String) (h : ∀ i, outcome i = .clientError) :
    ∀ fuel idx, (fetchLoop cfg outcome ua fuel idx).1 = none ∧
      (fetchLoop cfg outcome ua fuel idx).2.1 = fuel ∧
      (fetchLoop cfg outcome ua fuel idx).2.2.1 = List.replicate fuel ua := by
  intro fuel
  induction fuel with
  | zero => intro idx; simp [fetchLoop]
  | succ m ih =>
    intro idx
    rcases Nat.eq_zero_or_pos m with hm | hm
    · subst hm; simp [fetchLoop, h idx]
    · have hm0 : m ≠ 0 := Nat.pos_iff_ne_zero.mp hm
      have := ih (idx + 1)
      simp only [fetchLoop, h idx, if_neg hm0]
      refine ⟨this.1, ?_, ?_⟩
      · simp [this.2.1]
      · simp [this.2.2, List.replicate_succ]

/-- The headers sent across attempts are always copies of the one draw. -/
theorem fetchLoop_headers (cfg : ScraperConfig) (outcome : Nat → AttemptResult)
    (ua : String) :
    ∀ fuel idx, (fetchLoop cfg outcome ua fuel idx).2.2.1 =
      List.replicate (fetchLoop cfg outcome ua fuel idx).2.1 ua := by
  intro fuel
  induction fuel with
  | zero => intro idx; simp [fetchLoop]
  | succ m ih =>
    intro idx
    cases hoc : outcome idx with
    | success body => simp [fetchLoop, hoc]
    | clientError =>
      rcases Nat.eq_zero_or_pos m with hm | hm
      · subst hm; simp [fetchLoop, hoc]
      · have hm0 : m ≠ 0 := Nat.pos_iff_ne_zero.mp hm
        simp only [fetchLoop, hoc, if_neg hm0]
        simp [ih (idx + 1), List.replicate_succ]
    | otherError => simp [fetchLoop, hoc]

/-! ## Claim theorems for the fetcher and rate limiter -/

/-- Claim C4 counterexample: with `max_retries = 2` and every attempt
failing, `fetch` makes 2 attempts but performs only 1 rate-limiter wait,
so it is false that each attempt is preceded by a rate-limiter wait. -/
theorem fetch_rate_limit_not_per_attempt :
    (fetch { defaultScraperConfig with max_retries := 2 } "ua"
        (fun _ => .clientError)).attempts = 2 ∧
    (fetch { defaultScraperConfig with max_retries := 2 } "ua"
        (fun _ => .clientError)).rateLimitWaits = 1 ∧
    ¬ ((fetch { defaultScraperConfig with max_retries := 2 } "ua"
        (fun _ => .clientError)).rateLimitWaits =
       (fetch { defaultScraperConfig with max_retries := 2 } "ua"
        (fun _ => .clientError)).attempts) := by
  decide

/-- Claim C4 (amended): for every configuration with `max_retries = N`
and a locator failing every attempt with a client error, `fetch` makes
exactly N attempts, performs its single rate-limiter wait once per call
(before the first attempt, not before each attempt), and returns the
terminal error value `none` to the caller instead of raising or
retrying forever. -/
theorem fetch_retry_bound (cfg : ScraperConfig) (ua : String)
    (outcome : Nat → AttemptResult) (h : ∀ i, outcome i = .clientError) :
    (fetch cfg ua outcome).attempts = cfg.max_retries ∧
    (fetch cfg ua outcome).result = none ∧
    (fetch cfg ua outcome).rateLimitWaits = 1 := by
  have := fetchLoop_allFail cfg outcome ua h cfg.max_retries 0
  exact ⟨this.2.1, this.1, rfl⟩

/-- Witness for `fetch_retry_bound` at the default configuration. -/
theorem fetch_retry_bound_witness :
    (fetch defaultScraperConfig "ua" (fun _ => .clientError)).attempts = 3 ∧
    (fetch defaultScraperConfig "ua" (fun _ => .clientError)).result = none ∧
    (fetch defaultScraperConfig "ua" (fun _ => .clientError)).rateLimitWaits = 1 :=
  fetch_retry_bound defaultScraperConfig "ua" (fun _ => .clientError)
    (fun _ => rfl)

/-- Claim C7 counterexample: at the default configuration, with the last
request 5 seconds ago (well past the 1-second required gap) and a jitter
draw of 2 seconds inside `[min_delay, max_delay] = [1, 3]`, the rate
limiter sleeps 0 seconds — not at least the jitter, and less than
`min_delay_seconds` — so a call whose elapsed time meets the gap does
not sleep the jitter before approving. -/
theorem rate_limit_no_jitter_when_gap_met :
    applyRateLimit defaultScraperConfig (some 0) 5 2 = 0 ∧
    ¬ (defaultScraperConfig.min_delay_seconds ≤
        applyRateLimit defaultScraperConfig (some 0) 5 2) := by
  constructor
  · simp [applyRateLimit, defaultScraperConfig]
  · simp [applyRateLimit, defaultScraperConfig]

/-- Unfolding equation for `applyRateLimit` when a previous request exists. -/
theorem applyRateLimit_some (cfg : ScraperConfig) (t now jitter : ℚ) :
    applyRateLimit cfg (some t) now jitter =
      if now - t < 1 / cfg.requests_per_second then
        (1 / cfg.requests_per_second - (now - t)) + jitter
      else 0 := rfl

/-- Claim C7 (amended): the rate limiter sleeps only when a previous
request exists and the elapsed time since it is below
`required_gap = 1 / rate`, in which case it sleeps
`(required_gap - elapsed) + jitter` where `jitter` is the
`uniform(min_delay, max_delay)` draw; when the elapsed time already
meets the gap, or on the first request, it sleeps 0 (no baseline jitter
is added). -/
theorem rate_limit_sleep_characterization (cfg : ScraperConfig)
    (t now jitter : ℚ) :
    (now - t < 1 / cfg.requests_per_second →
      applyRateLimit cfg (some t) now jitter =
        (1 / cfg.requests_per_second - (now - t)) + jitter) ∧
    (¬ (now - t < 1 / cfg.requests_per_second) →
      applyRateLimit cfg (some t) now jitter = 0) ∧
    applyRateLimit cfg none now jitter = 0 := by
  refine ⟨fun h => ?_, fun h => ?_, rfl⟩
  · rw [applyRateLimit_some, if_pos h]
  · rw [applyRateLimit_some, if_neg h]

/-- Witness for `rate_limit_sleep_characterization`: elapsed 1/2 second
against a 1-second gap with jitter 2 sleeps 5/2 seconds. -/
theorem rate_limit_sleep_characterization_witness :
    applyRateLimit defaultScraperConfig (some 0) (1/2) 2 = 5/2 := by
  have h := (rate_limit_sleep_characterization defaultScraperConfig 0 (1/2) 2).1
  have h2 := h (by norm_num [defaultScraperConfig])
  rw [h2]
  norm_num [defaultScraperConfig]

/-- Claim C8 counterexample: with `max_retries = 3` and every attempt
failing, one fetch call makes 3 attempts but only 1 pseudo-random
User-Agent draw, so it is false that each retry attempt makes a fresh
selection from the pool. -/
theorem fetch_ua_not_fresh_per_attempt :
    (fetch defaultScraperConfig "ua0" (fun _ => .clientError)).attempts = 3 ∧
    (fetch defaultScraperConfig "ua0" (fun _ => .clientError)).uaDraws = 1 ∧
    ¬ ((fetch defaultScraperConfig "ua0" (fun _ => .clientError)).uaDraws =
       (fetch defaultScraperConfig "ua0" (fun _ => .clientError)).attempts) := by
  decide

/-- Claim C8 (amended): within a single fetch call the User-Agent is
selected pseudo-randomly from the configured pool exactly once, before
the first attempt, and that same selection is sent as the header of
every retry attempt of the call. -/
theorem fetch_ua_single_draw (cfg : ScraperConfig) (ua : String)
    (outcome : Nat → AttemptResult) :
    (fetch cfg ua outcome).uaDraws = 1 ∧
    (fetch cfg ua outcome).headers =
      List.replicate (fetch cfg ua outcome).attempts ua :=
  ⟨rfl, fetchLoop_headers cfg outcome ua cfg.max_retries 0⟩

/-- Witness for `fetch_ua_single_draw` at a concrete failing run: both
attempts of a 2-retry call send the same drawn User-Agent. -/
theorem fetch_ua_single_draw_witness :
    (fetch { defaultScraperConfig with max_retries := 2 } "agentA"
        (fun _ => .clientError)).uaDraws = 1 ∧
    (fetch { defaultScraperConfig with max_retries := 2 } "agentA"
        (fun _ => .clientError)).headers =
      List.replicate (fetch { defaultScraperConfig with max_retries := 2 }
        "agentA" (fun _ => .clientError)).attempts "agentA" :=
  fetch_ua_single_draw { defaultScraperConfig with max_retries := 2 }
    "agentA" (fun _ => .clientError)

/-! ## Numeric stat extraction

Character path (`CharacterScraper._extract_stats`): the cell text is
skipped when empty or `"-"`; otherwise the code removes `%`, `,`, `，`
and spaces, searches for the first match of the pattern of digits and
dots, and converts it with `float` when it contains a dot and `int`
otherwise (a `float` conversion failure is caught and the field is
dropped).  Weapon base-attack path (`WeaponScraper._extract_stats`):
the cell text is skipped when empty or `"-"`; otherwise the first run
of digits is taken, with no separator stripping, and converted with
`int`.  A field never produced defaults to absent, never zero. -/

def isNumChar (c : Char) : Bool := c.isDigit || c == '.'

/-- First match of the regex class run `[\d.]+` in a character list. -/
def firstNumToken : List Char → Option (List Char)
  | [] => none
  | c :: rest =>
    if isNumChar c then some (c :: rest.takeWhile isNumChar)
    else firstNumToken rest

/-- First match of the digit run `\d+` in a character list. -/
def firstDigitRun : List Char → Option (List Char)
  | [] => none
  | c :: rest =>
    if c.isDigit then some (c :: rest.takeWhile Char.isDigit)
    else firstDigitRun rest

def digitsToNat (cs : List Char) : Nat :=
  cs.foldl (fun n c => 10 * n + (c.toNat - 48)) 0

/-- Python `float`/`int` conversion of a token drawn from `[\d.]+`:
no dot means `int`; exactly one dot with at least one digit means
`float`; anything else raises `ValueError`, which the scraper catches
and treats as "no value". -/
def parseToken (tok : List Char) : Option ℚ :=
  let dots := tok.count '.'
  if dots = 0 then some (digitsToNat tok)
  else if dots = 1 ∧ 2 ≤ tok.length then
    let intPart := tok.takeWhile (fun c => c != '.')
    let fracPart := (tok.dropWhile (fun c => c != '.')).drop 1
    some ((digitsToNat intPart : ℚ) + (digitsToNat fracPart : ℚ) / 10 ^ fracPart.length)
  else none

/-- Removal of `%`, `,`, `，` and spaces performed on a character stat
cell before the numeric search. -/
def cleanStatText (s : String) : String :=
  String.mk (s.data.filter
    (fun c => !(c == '%' || c == ',' || c == '，' || c == ' ')))

/-- Character stat cell extraction: the `Option` result is the value
assigned into `base_stats`, and `none` means the field is omitted. -/
def extractStatValue (s : String) : Option ℚ :=
  if s = "" ∨ s = "-" then none
  else
    match firstNumToken (cleanStatText s).data with
    | none => none
    | some tok => parseToken tok

/-- Weapon base-attack cell extraction (`re.search` for a digit run on
the raw text, then `int`). -/
def extractBaseAttack (s : String) : Option Int :=
  if s = "" ∨ s = "-" then none
  else (firstDigitRun s.data).map (fun tok => (digitsToNat tok : Int))

/-- Claim C6 counterexample: a weapon base-attack cell reading "1,234"
is extracted as 1 — the first digit run before the comma — not as the
separator-stripped 1234 the claim asserts for every numeric stat cell. -/
theorem weapon_base_attack_keeps_separator :
    extractBaseAttack "1,234" = some 1 ∧
    ¬ (extractBaseAttack "1,234" = some 1234) := by
  decide

/-- Claim C6 (amended): the character stat extractor strips thousands
separators and percent signs and parses the first numeric token, so
"1,234" yields 1234 and "41.3%" yields 41.3, and a cell with no numeric
token leaves the field omitted rather than zero; the weapon base-attack
extractor instead parses the first run of digits without stripping
separators, so "1,234" yields 1, and it too omits the field when the
cell has no digits. -/
theorem numeric_extraction_behaviour :
    extractStatValue "1,234" = some 1234 ∧
    extractStatValue "41.3%" = some (413 / 10) ∧
    (∀ s : String, firstNumToken (cleanStatText s).data = none →
      extractStatValue s = none) ∧
    extractBaseAttack "1,234" = some 1 ∧
    (∀ s : String, firstDigitRun s.data = none →
      extractBaseAttack s = none) := by
  refine ⟨by decide, ?_, ?_, by decide, ?_⟩
  · simp +decide [extractStatValue, cleanStatText, firstNumToken, isNumChar,
      parseToken, digitsToNat]
    norm_num
  · intro s h
    unfold extractStatValue
    split
    · rfl
    · rw [h]
  · intro s h
    unfold extractBaseAttack
    split
    · rfl
    · rw [h]; rfl

/-- Witness for `numeric_extraction_behaviour`: the cell "N/A" has no
numeric token and yields no value on either path. -/
theorem numeric_extraction_behaviour_witness :
    extractStatValue "N/A" = none ∧ extractBaseAttack "N/A" = none :=
  ⟨numeric_extraction_behaviour.2.2.1 "N/A" (by decide),
   numeric_extraction_behaviour.2.2.2.2 "N/A" (by decide)⟩

/-! ## Data storage (`DataStorageService` in data_storage.py)

Python truthiness drives the update guards (`if new_data.get(field):`),
so empty strings and zero integers are treated like `None` there, while
the change detectors test `is not None`.  A scraped `base_stats` dict is
modelled by `StatsDict`: `empty` is the falsy `{}` (or an absent key),
and `dict vals` is any non-empty dict whose `.get` results for the keys
`hp`/`atk`/`def` are `vals` (so a dict of only irrelevant or null
entries is `dict ⟨none, none, none⟩`, which is still truthy). -/

def truthyStr (o : Option String) : Bool :=
  match o with
  | some s => s != ""
  | none => false

def truthyInt (o : Option Int) : Bool :=
  match o with
  | some v => v != 0
  | none => false

def truthyQ (o : Option ℚ) : Bool :=
  match o with
  | some v => v != 0
  | none => false

structure StatsVals where
  hp : Option ℚ
  atk : Option ℚ
  defStat : Option ℚ
deriving DecidableEq

inductive StatsDict
  | empty
  | dict (vals : StatsVals)
deriving DecidableEq

def StatsDict.hp : StatsDict → Option ℚ
  | .empty => none
  | .dict v => v.hp

def StatsDict.atk : StatsDict → Option ℚ
  | .empty => none
  | .dict v => v.atk

def StatsDict.defStat : StatsDict → Option ℚ
  | .empty => none
  | .dict v => v.defStat

/-- Persisted `Character` row (models/character.py columns used by the
storage service).  `updated_at` is an abstract clock tick. -/
structure Character where
  name : String
  name_en : Option String
  rarity : Option Int
  element : Option String
  weapon_type : Option String
  region : Option String
  description : Option String
  base_stats : StatsDict
  ascension_stats : List (String × String)
  updated_at : Nat
deriving DecidableEq

/-- A scraped character dictionary as handed to the storage service.
Every entry is optional; `ascension_stats = []` is the falsy `{}`. -/
structure CharData where
  name : Option String
  name_en : Option String
  rarity : Option Int
  element : Option String
  weapon_type : Option String
  region : Option String
  description : Option String
  base_stats : StatsDict
  ascension_stats : List (String × String)
deriving DecidableEq

/-- The `_stats` accumulator of `DataStorageService`. -/
structure SyncStats where
  created : Nat
  updated : Nat
  skipped : Nat
  errors : Nat
deriving DecidableEq

def SyncStats.total (s : SyncStats) : Nat :=
  s.created + s.updated + s.skipped + s.errors

/-- Model of `reset_stats` and of the freshly initialized accumulator. -/
def resetStats : SyncStats := ⟨0, 0, 0, 0⟩

/-- Model of `DataStorageService._character_has_changes`. -/
def characterHasChanges (existing : Character) (new_data : CharData) : Bool :=
  (new_data.rarity.isSome && new_data.rarity != existing.rarity) ||
  (new_data.element.isSome && new_data.element != existing.element) ||
  (new_data.weapon_type.isSome && new_data.weapon_type != existing.weapon_type) ||
  (new_data.region.isSome && new_data.region != existing.region) ||
  (new_data.description.isSome && new_data.description != existing.description) ||
  (match new_data.base_stats with
   | .empty => false
   | .dict bs =>
     (truthyQ bs.hp && bs.hp != existing.base_stats.hp) ||
     (truthyQ bs.atk && bs.atk != existing.base_stats.atk) ||
     (truthyQ bs.defStat && bs.defStat != existing.base_stats.defStat))

/-- Model of `DataStorageService._create_character`; `name` is the (truthy)
`char_data["name"]` and `now` stands for the default timestamp of the store. -/
def createCharacter (char_data : CharData) (name : String) (now : Nat) :
    Character where
  name := name
  name_en := char_data.name_en
  rarity := char_data.rarity
  element := char_data.element
  weapon_type := char_data.weapon_type
  region := char_data.region
  description := char_data.description
  -- the model always materializes a three-key dict from the scraped gets
  base_stats := .dict ⟨char_data.base_stats.hp, char_data.base_stats.atk,
    char_data.base_stats.defStat⟩
  ascension_stats := char_data.ascension_stats
  updated_at := now

/-- Model of `DataStorageService._update_character`. -/
def updateCharacter (existing : Character) (new_data : CharData) (now : Nat) :
    Character where
  name := existing.name
  name_en := if truthyStr new_data.name_en then new_data.name_en else existing.name_en
  rarity := if truthyInt new_data.rarity then new_data.rarity else existing.rarity
  element := if truthyStr new_data.element then new_data.element else existing.element
  weapon_type :=
    if truthyStr new_data.weapon_type then new_data.weapon_type
    else existing.weapon_type
  region := if truthyStr new_data.region then new_data.region else existing.region
  description :=
    if truthyStr new_data.description then new_data.description
    else existing.description
  -- `if scraped_stats:` replaces the whole dict with the three gets
  base_stats :=
    match new_data.base_stats with
    | .empty => existing.base_stats
    | .dict bs => .dict ⟨bs.hp, bs.atk, bs.defStat⟩
  ascension_stats :=
    if new_data.ascension_stats = [] then existing.ascension_stats
    else new_data.ascension_stats
  updated_at := now

/-- Replace the first record matching `p` (the row the lookup found and
the update mutated in place). -/
def updateFirst (p : α → Bool) (f : α → α) : List α → List α
  | [] => []
  | x :: xs => if p x then f x :: xs else x :: updateFirst p f xs

/-- Model of `DataStorageService._store_single_character`: skip on a falsy name,
otherwise look up by name and create / update / skip. -/
def storeSingleCharacter (now : Nat) (acc : List Character × SyncStats)
    (char_data : CharData) : List Character × SyncStats :=
  let store := acc.1
  let stats := acc.2
  match char_data.name with
  | none => (store, { stats with skipped := stats.skipped + 1 })
  | some n =>
    if n = "" then (store, { stats with skipped := stats.skipped + 1 })
    else
      match store.find? (fun c => c.name == n) with
      | some existing =>
        if characterHasChanges existing char_data then
          (updateFirst (fun c => c.name == n)
              (fun c => updateCharacter c char_data now) store,
           { stats with updated := stats.updated + 1 })
        else (store, { stats with skipped := stats.skipped + 1 })
      | none =>
        (store ++ [createCharacter char_data n now],
         { stats with created := stats.created + 1 })

/-- Model of `DataStorageService.store_characters`: folds the per-record store
over the batch.  Note: no `reset_stats` call — the incoming accumulator
keeps whatever it already held. -/
def storeCharacters (stats : SyncStats) (store : List Character) (now : Nat)
    (characters : List CharData) : List Character × SyncStats :=
  characters.foldl (storeSingleCharacter now) (store, stats)

/-! ### Weapons -/

/-- Persisted `Weapon` row (models/weapon.py columns used here). -/
structure Weapon where
  name : String
  name_en : Option String
  weapon_type : Option String
  rarity : Option Int
  base_attack : Option Int
  secondary_stat : Option String
  secondary_stat_value : Option String
  description : Option String
  passive_name : Option String
  passive_description : Option String
  source : Option String
  updated_at : Nat
deriving DecidableEq

/-- A scraped weapon dictionary. -/
structure WeaponData where
  name : Option String
  name_en : Option String
  weapon_type : Option String
  rarity : Option Int
  base_attack : Option Int
  secondary_stat : Option String
  secondary_stat_value : Option String
  description : Option String
  passive_name : Option String
  passive_description : Option String
  source : Option String
deriving DecidableEq

/-- Model of `DataStorageService._weapon_has_changes`. -/
def weaponHasChanges (existing : Weapon) (new_data : WeaponData) : Bool :=
  (new_data.rarity.isSome && new_data.rarity != existing.rarity) ||
  (new_data.weapon_type.isSome && new_data.weapon_type != existing.weapon_type) ||
  (new_data.base_attack.isSome && new_data.base_attack != existing.base_attack) ||
  (new_data.description.isSome && new_data.description != existing.description)

/-- Model of `DataStorageService._create_weapon`. -/
def createWeapon (weapon_data : WeaponData) (name : String) (now : Nat) :
    Weapon where
  name := name
  name_en := weapon_data.name_en
  weapon_type := weapon_data.weapon_type
  rarity := weapon_data.rarity
  base_attack := weapon_data.base_attack
  secondary_stat := weapon_data.secondary_stat
  secondary_stat_value := weapon_data.secondary_stat_value
  description := weapon_data.description
  passive_name := weapon_data.passive_name
  passive_description := weapon_data.passive_description
  source := weapon_data.source
  updated_at := now

/-- Model of `DataStorageService._update_weapon`. -/
def updateWeapon (existing : Weapon) (new_data : WeaponData) (now : Nat) :
    Weapon where
  name := existing.name
  name_en := if truthyStr new_data.name_en then new_data.name_en else existing.name_en
  weapon_type :=
    if truthyStr new_data.weapon_type then new_data.weapon_type
    else existing.weapon_type
  rarity := if truthyInt new_data.rarity then new_data.rarity else existing.rarity
  base_attack :=
    if truthyInt new_data.base_attack then new_data.base_attack
    else existing.base_attack
  secondary_stat :=
    if truthyStr new_data.secondary_stat then new_data.secondary_stat
    else existing.secondary_stat
  secondary_stat_value :=
    if truthyStr new_data.secondary_stat_value then new_data.secondary_stat_value
    else existing.secondary_stat_value
  description :=
    if truthyStr new_data.description then new_data.description
    else existing.description
  passive_name :=
    if truthyStr new_data.passive_name then new_data.passive_name
    else existing.passive_name
  passive_description :=
    if truthyStr new_data.passive_description then new_data.passive_description
    else existing.passive_description
  source := if truthyStr new_data.source then new_data.source else existing.source
  updated_at := now

/-- Model of `DataStorageService._store_single_weapon`. -/
def storeSingleWeapon (now : Nat) (acc : List Weapon × SyncStats)
    (weapon_data : WeaponData) : List Weapon × SyncStats :=
  let store := acc.1
  let stats := acc.2
  match weapon_data.name with
  | none => (store, { stats with skipped := stats.skipped + 1 })
  | some n =>
    if n = "" then (store, { stats with skipped := stats.skipped + 1 })
    else
      match store.find? (fun w => w.name == n) with
      | some existing =>
        if weaponHasChanges existing weapon_data then
          (updateFirst (fun w => w.name == n)
              (fun w => updateWeapon w weapon_data now) store,
           { stats with updated := stats.updated + 1 })
        else (store, { stats with skipped := stats.skipped + 1 })
      | none =>
        (store ++ [createWeapon weapon_data n now],
         { stats with created := stats.created + 1 })

/-- Model of `DataStorageService.store_weapons`: unlike `store_characters`, the
first statement is `self.reset_stats()`, so the incoming accumulator is
discarded. -/
def storeWeapons (_stats : SyncStats) (store : List Weapon) (now : Nat)
    (weapons : List WeaponData) : List Weapon × SyncStats :=
  weapons.foldl (storeSingleWeapon now) (store, resetStats)

/-! ### Artifact sets -/

/-- One piece entry of an artifact set (stored as JSON). -/
structure ArtifactPiece where
  slot : Option String
  slot_cn : Option String
  piece_name : Option String
  lore : Option String
deriving DecidableEq

/-- Persisted `ArtifactSet` row (models/artifact_set.py columns used
here). -/
structure ArtifactSet where
  set_name : String
  set_name_en : Option String
  tags : List String
  max_rarity : Int
  two_piece_bonus : Option String
  four_piece_bonus : Option String
  description : Option String
  source : Option String
  domain_name : Option String
  pieces : List ArtifactPiece
  updated_at : Nat
deriving DecidableEq

/-- A scraped artifact-set dictionary. -/
structure ArtifactData where
  name : Option String
  name_en : Option String
  tags : List String
  max_rarity : Option Int
  two_piece_bonus : Option String
  four_piece_bonus : Option String
  description : Option String
  source : Option String
  domain_name : Option String
  pieces : List ArtifactPiece
deriving DecidableEq

/-- Python `set(xs) == set(ys)` on tag lists. -/
def sameTagSet (xs ys : List String) : Bool :=
  xs.all (fun t => ys.contains t) && ys.all (fun t => xs.contains t)

/-- Model of `DataStorageService._artifact_set_has_changes`. -/
def artifactSetHasChanges (existing : ArtifactSet) (new_data : ArtifactData) :
    Bool :=
  (truthyInt new_data.max_rarity && new_data.max_rarity != some existing.max_rarity) ||
  !(sameTagSet new_data.tags existing.tags) ||
  (truthyStr new_data.description && new_data.description != existing.description) ||
  (truthyStr new_data.two_piece_bonus &&
    new_data.two_piece_bonus != existing.two_piece_bonus) ||
  (truthyStr new_data.four_piece_bonus &&
    new_data.four_piece_bonus != existing.four_piece_bonus) ||
  (new_data.pieces.length != existing.pieces.length)

/-- Model of `DataStorageService._create_artifact_set` (`max_rarity` defaults to 5). -/
def createArtifactSet (artifact_data : ArtifactData) (name : String) (now : Nat) :
    ArtifactSet where
  set_name := name
  set_name_en := artifact_data.name_en
  tags := artifact_data.tags
  max_rarity := artifact_data.max_rarity.getD 5
  two_piece_bonus := artifact_data.two_piece_bonus
  four_piece_bonus := artifact_data.four_piece_bonus
  description := artifact_data.description
  source := artifact_data.source
  domain_name := artifact_data.domain_name
  pieces := artifact_data.pieces
  updated_at := now

/-- Model of `DataStorageService._update_artifact_set`. -/
def updateArtifactSet (existing : ArtifactSet) (new_data : ArtifactData)
    (now : Nat) : ArtifactSet where
  set_name := existing.set_name
  set_name_en :=
    if truthyStr new_data.name_en then new_data.name_en else existing.set_name_en
  tags := if new_data.tags = [] then existing.tags else new_data.tags
  max_rarity :=
    match new_data.max_rarity with
    | some v => if v != 0 then v else existing.max_rarity
    | none => existing.max_rarity
  two_piece_bonus :=
    if truthyStr new_data.two_piece_bonus then new_data.two_piece_bonus
    else existing.two_piece_bonus
  four_piece_bonus :=
    if truthyStr new_data.four_piece_bonus then new_data.four_piece_bonus
    else existing.four_piece_bonus
  description :=
    if truthyStr new_data.description then new_data.description
    else existing.description
  source := if truthyStr new_data.source then new_data.source else existing.source
  domain_name :=
    if truthyStr new_data.domain_name then new_data.domain_name
    else existing.domain_name
  pieces := if new_data.pieces = [] then existing.pieces else new_data.pieces
  updated_at := now

/-- Model of `DataStorageService._store_single_artifact_set`. -/
def storeSingleArtifactSet (now : Nat) (acc : List ArtifactSet × SyncStats)
    (artifact_data : ArtifactData) : List ArtifactSet × SyncStats :=
  let store := acc.1
  let stats := acc.2
  match artifact_data.name with
  | none => (store, { stats with skipped := stats.skipped + 1 })
  | some n =>
    if n = "" then (store, { stats with skipped := stats.skipped + 1 })
    else
      match store.find? (fun a => a.set_name == n) with
      | some existing =>
        if artifactSetHasChanges existing artifact_data then
          (updateFirst (fun a => a.set_name == n)
              (fun a => updateArtifactSet a artifact_data now) store,
           { stats with updated := stats.updated + 1 })
        else (store, { stats with skipped := stats.skipped + 1 })
      | none =>
        (store ++ [createArtifactSet artifact_data n now],
         { stats with created := stats.created + 1 })

/-- Model of `DataStorageService.store_artifacts`: also starts with
`self.reset_stats()`. -/
def storeArtifacts (_stats : SyncStats) (store : List ArtifactSet) (now : Nat)
    (artifacts : List ArtifactData) : List ArtifactSet × SyncStats :=
  artifacts.foldl (storeSingleArtifactSet now) (store, resetStats)

/-! ## Orchestration (`run_character_scraping` in api/scraper.py)

The task builds a fresh `CharacterScraper` and a fresh
`DataStorageService` (so the accumulator starts at zero), scrapes each
requested name — `scrape` appends the result of `scrape_character` when it is
truthy and drops the name otherwise — and hands only the collected
records to `store_characters`.  The oracle `scrapeResult` supplies what
`scrape_character` returns for each name. -/

def scrapeCharacters (scrapeResult : String → Option CharData)
    (character_names : List String) : List CharData :=
  character_names.filterMap scrapeResult

def runCharacterScraping (scrapeResult : String → Option CharData)
    (character_names : List String) (store : List Character) (now : Nat) :
    List Character × SyncStats :=
  storeCharacters resetStats store now
    (scrapeCharacters scrapeResult character_names)

/-! ## Helper lemmas about the storage fold -/

theorem find_append_of_none {α : Type} (p : α → Bool) (l1 l2 : List α)
    (h : l1.find? p = none) : (l1 ++ l2).find? p = l2.find? p := by
  induction l1 with
  | nil => simp
  | cons x xs ih =>
    cases hp : p x with
    | true => simp [List.find?, hp] at h
    | false =>
      simp only [List.cons_append, List.find?, hp] at h ⊢
      exact ih h

theorem storeSingleCharacter_total (now : Nat) (store : List Character)
    (stats : SyncStats) (d : CharData) :
    ((storeSingleCharacter now (store, stats) d).2).total = stats.total + 1 := by
  unfold storeSingleCharacter SyncStats.total
  rcases d.name with _ | n
  · simp; omega
  · by_cases hn : n = ""
    · simp [hn]; omega
    · simp only [hn]
      rcases hfind : store.find? (fun c => c.name == n) with _ | ex
      · simp [hn, hfind]; omega
      · by_cases hch : characterHasChanges ex d <;> simp [hn, hfind, hch] <;> omega

theorem storeSingleWeapon_total (now : Nat) (store : List Weapon)
    (stats : SyncStats) (d : WeaponData) :
    ((storeSingleWeapon now (store, stats) d).2).total = stats.total + 1 := by
  unfold storeSingleWeapon SyncStats.total
  rcases d.name with _ | n
  · simp; omega
  · by_cases hn : n = ""
    · simp [hn]; omega
    · simp only [hn]
      rcases hfind : store.find? (fun w => w.name == n) with _ | ex
      · simp [hn, hfind]; omega
      · by_cases hch : weaponHasChanges ex d <;> simp [hn, hfind, hch] <;> omega

theorem storeSingleArtifactSet_total (now : Nat) (store : List ArtifactSet)
    (stats : SyncStats) (d : ArtifactData) :
    ((storeSingleArtifactSet now (store, stats) d).2).total = stats.total + 1 := by
  unfold storeSingleArtifactSet SyncStats.total
  rcases d.name with _ | n
  · simp; omega
  · by_cases hn : n = ""
    · simp [hn]; omega
    · simp only [hn]
      rcases hfind : store.find? (fun a => a.set_name == n) with _ | ex
      · simp [hn, hfind]; omega
      · by_cases hch : artifactSetHasChanges ex d <;> simp [hn, hfind, hch] <;> omega

theorem storeCharacters_total (characters : List CharData) :
    ∀ (stats : SyncStats) (store : List Character) (now : Nat),
      ((storeCharacters stats store now characters).2).total =
        stats.total + characters.length := by
  induction characters with
  | nil => intro stats store now; simp [storeCharacters]
  | cons c cs ih =>
    intro stats store now
    have h1 := storeSingleCharacter_total now store stats c
    have h2 := ih (storeSingleCharacter now (store, stats) c).2
      (storeSingleCharacter now (store, stats) c).1 now
    simp only [storeCharacters, List.foldl_cons] at h2 ⊢
    rw [Prod.mk.eta] at h2
    rw [h2, h1]
    simp
    omega

theorem storeWeaponsFold_total (weapons : List WeaponData) :
    ∀ (stats : SyncStats) (store : List Weapon) (now : Nat),
      ((weapons.foldl (storeSingleWeapon now) (store, stats)).2).total =
        stats.total + weapons.length := by
  induction weapons with
  | nil => intro stats store now; simp
  | cons w ws ih =>
    intro stats store now
    have h1 := storeSingleWeapon_total now store stats w
    have h2 := ih (storeSingleWeapon now (store, stats) w).2
      (storeSingleWeapon now (store, stats) w).1 now
    simp only [List.foldl_cons] at h2 ⊢
    rw [Prod.mk.eta] at h2
    rw [h2, h1]
    simp
    omega

theorem storeArtifactsFold_total (artifacts : List ArtifactData) :
    ∀ (stats : SyncStats) (store : List ArtifactSet) (now : Nat),
      ((artifacts.foldl (storeSingleArtifactSet now) (store, stats)).2).total =
        stats.total + artifacts.length := by
  induction artifacts with
  | nil => intro stats store now; simp
  | cons a arts ih =>
    intro stats store now
    have h1 := storeSingleArtifactSet_total now store stats a
    have h2 := ih (storeSingleArtifactSet now (store, stats) a).2
      (storeSingleArtifactSet now (store, stats) a).1 now
    simp only [List.foldl_cons] at h2 ⊢
    rw [Prod.mk.eta] at h2
    rw [h2, h1]
    simp
    omega

/-! ## Claim theorems for the synchronizer -/

/-- Claim C1: an extracted record whose compared attributes are all null
and whose `base_stats` dict is empty reconciles against an existing
persisted record with the same name as a SKIP: only the skipped counter
moves and the store — hence every field of the persisted record — is
unchanged. -/
theorem reconcile_skips_fully_unobserved (now : Nat) (store : List Character)
    (stats : SyncStats) (E : CharData) (n : String) (P : Character)
    (hname : E.name = some n) (hn : n ≠ "")
    (hfound : store.find? (fun c => c.name == n) = some P)
    (hrar : E.rarity = none) (hel : E.element = none)
    (hwt : E.weapon_type = none) (hreg : E.region = none)
    (hdesc : E.description = none) (hbs : E.base_stats = .empty) :
    storeSingleCharacter now (store, stats) E =
      (store, { stats with skipped := stats.skipped + 1 }) := by
  have hch : characterHasChanges P E = false := by
    simp [characterHasChanges, hrar, hel, hwt, hreg, hdesc, hbs]
  simp [storeSingleCharacter, hname, hn, hfound, hch]

/-- Persisted character used in concrete scenarios. -/
def sampleCharacter : Character where
  name := "Alpha"
  name_en := none
  rarity := some 5
  element := some "Pyro"
  weapon_type := none
  region := none
  description := none
  base_stats := .dict ⟨some 100, some 50, some 30⟩
  ascension_stats := []
  updated_at := 0

/-- An extraction of "Alpha" that observed nothing. -/
def nullCharData : CharData where
  name := some "Alpha"
  name_en := none
  rarity := none
  element := none
  weapon_type := none
  region := none
  description := none
  base_stats := .empty
  ascension_stats := []

/-- Witness for `reconcile_skips_fully_unobserved` on a one-record store. -/
theorem reconcile_skips_fully_unobserved_witness :
    storeSingleCharacter 3 ([sampleCharacter], resetStats) nullCharData =
      ([sampleCharacter], { resetStats with skipped := 1 }) :=
  reconcile_skips_fully_unobserved 3 [sampleCharacter] resetStats nullCharData
    "Alpha" sampleCharacter rfl (by decide) rfl rfl rfl rfl rfl rfl rfl

/-- Extraction of "Alpha" that observed only `hp` in `base_stats`. -/
def hpOnlyCharData : CharData where
  name := some "Alpha"
  name_en := none
  rarity := none
  element := none
  weapon_type := none
  region := none
  description := none
  base_stats := .dict ⟨some 200, none, none⟩
  ascension_stats := []

/-- Claim C2 counterexample: `hpOnlyCharData` is classified as changed
against `sampleCharacter` (hp 200 vs 100), but the update then replaces
the whole `base_stats` dict, so the persisted `atk` — which the
extracted record omitted — is wiped from 50 to null rather than left
unchanged. -/
theorem update_erases_omitted_stat_keys :
    characterHasChanges sampleCharacter hpOnlyCharData = true ∧
    sampleCharacter.base_stats.atk = some 50 ∧
    (updateCharacter sampleCharacter hpOnlyCharData 1).base_stats.atk = none ∧
    ¬ ((updateCharacter sampleCharacter hpOnlyCharData 1).base_stats.atk =
        sampleCharacter.base_stats.atk) := by
  decide

/-- Claim C2 (amended): the update step leaves every scalar field whose
extracted value is null untouched, keeps the name, bumps the updated
timestamp, and applies truthy extracted scalar values; however, when the
extracted `base_stats` dict is non-empty the entire persisted
`base_stats` dict is replaced by the extracted hp/atk/def lookups, so
stat keys omitted from the extracted dict become null instead of
retaining their persisted values (when the extracted dict is empty the
persisted stats survive).  The weapon update applies per-field guards
throughout, so a null extracted `base_attack` or `rarity` leaves the
persisted value unchanged while a truthy one replaces it. -/
theorem update_frame_behaviour (P : Character) (E : CharData) (now : Nat)
    (W : Weapon) (WD : WeaponData) (now2 : Nat) :
    ((E.rarity = none → (updateCharacter P E now).rarity = P.rarity) ∧
     (E.element = none → (updateCharacter P E now).element = P.element) ∧
     (E.weapon_type = none →
       (updateCharacter P E now).weapon_type = P.weapon_type) ∧
     (E.region = none → (updateCharacter P E now).region = P.region) ∧
     (E.description = none →
       (updateCharacter P E now).description = P.description) ∧
     (updateCharacter P E now).name = P.name ∧
     (updateCharacter P E now).updated_at = now ∧
     (∀ bs : StatsVals, E.base_stats = .dict bs →
       (updateCharacter P E now).base_stats =
         .dict ⟨bs.hp, bs.atk, bs.defStat⟩) ∧
     (E.base_stats = .empty →
       (updateCharacter P E now).base_stats = P.base_stats)) ∧
    ((WD.base_attack = none →
       (updateWeapon W WD now2).base_attack = W.base_attack) ∧
     (WD.rarity = none → (updateWeapon W WD now2).rarity = W.rarity) ∧
     (WD.description = none →
       (updateWeapon W WD now2).description = W.description) ∧
     (updateWeapon W WD now2).updated_at = now2 ∧
     (∀ v : Int, WD.base_attack = some v → v ≠ 0 →
       (updateWeapon W WD now2).base_attack = some v)) := by
  refine ⟨⟨?_, ?_, ?_, ?_, ?_, rfl, rfl, ?_, ?_⟩, ?_, ?_, ?_, rfl, ?_⟩
  · intro h; simp [updateCharacter, truthyInt, h]
  · intro h; simp [updateCharacter, truthyStr, h]
  · intro h; simp [updateCharacter, truthyStr, h]
  · intro h; simp [updateCharacter, truthyStr, h]
  · intro h; simp [updateCharacter, truthyStr, h]
  · intro bs h; simp [updateCharacter, h]
  · intro h; simp [updateCharacter, h]
  · intro h; simp [updateWeapon, truthyInt, h]
  · intro h; simp [updateWeapon, truthyInt, h]
  · intro h; simp [updateWeapon, truthyStr, h]
  · intro v hv hnz; simp [updateWeapon, truthyInt, hv, hnz]

/-- Persisted weapon used in concrete scenarios. -/
def sampleWeapon : Weapon where
  name := "Alpha"
  name_en := none
  weapon_type := some "Sword"
  rarity := some 5
  base_attack := some 46
  secondary_stat := none
  secondary_stat_value := none
  description := none
  passive_name := none
  passive_description := none
  source := none
  updated_at := 0

/-- A weapon extraction of "Alpha" that observed nothing. -/
def nullWeaponData : WeaponData where
  name := some "Alpha"
  name_en := none
  weapon_type := none
  rarity := none
  base_attack := none
  secondary_stat := none
  secondary_stat_value := none
  description := none
  passive_name := none
  passive_description := none
  source := none

/-- Witness for `update_frame_behaviour` at concrete records. -/
theorem update_frame_behaviour_witness :
    (updateCharacter sampleCharacter nullCharData 7).rarity =
      sampleCharacter.rarity ∧
    (updateCharacter sampleCharacter nullCharData 7).base_stats =
      sampleCharacter.base_stats ∧
    (updateCharacter sampleCharacter nullCharData 7).updated_at = 7 ∧
    (updateWeapon sampleWeapon nullWeaponData 9).base_attack =
      sampleWeapon.base_attack := by
  have h := update_frame_behaviour sampleCharacter nullCharData 7
    sampleWeapon nullWeaponData 9
  exact ⟨h.1.1 rfl, h.1.2.2.2.2.2.2.2.2 rfl, h.1.2.2.2.2.2.2.1, h.2.1 rfl⟩

/-- Claim C3: for a store with no record under the key, reconciling the
same weapon record (with a truthy name) twice yields a create — only the
created counter moves — and then a skip with no store write: never two
creates and never an update without a changed compared field. -/
theorem reconcile_create_then_skip (store : List Weapon) (stats : SyncStats)
    (now now2 : Nat) (wd : WeaponData) (n : String)
    (hname : wd.name = some n) (hn : n ≠ "")
    (hnotfound : store.find? (fun w => w.name == n) = none) :
    (storeSingleWeapon now (store, stats) wd).2 =
      { stats with created := stats.created + 1 } ∧
    (storeSingleWeapon now2 (storeSingleWeapon now (store, stats) wd) wd).2 =
      { stats with created := stats.created + 1,
                   skipped := stats.skipped + 1 } ∧
    (storeSingleWeapon now2 (storeSingleWeapon now (store, stats) wd) wd).1 =
      (storeSingleWeapon now (store, stats) wd).1 := by
  have hstep1 : storeSingleWeapon now (store, stats) wd =
      (store ++ [createWeapon wd n now],
       { stats with created := stats.created + 1 }) := by
    simp [storeSingleWeapon, hname, hn, hnotfound]
  have hfind2 : (store ++ [createWeapon wd n now]).find?
      (fun w => w.name == n) = some (createWeapon wd n now) := by
    rw [find_append_of_none _ _ _ hnotfound]
    simp [List.find?, createWeapon]
  have hch : weaponHasChanges (createWeapon wd n now) wd = false := by
    simp [weaponHasChanges, createWeapon]
  rw [hstep1]
  exact ⟨rfl, by simp [storeSingleWeapon, hname, hn, hfind2, hch],
    by simp [storeSingleWeapon, hname, hn, hfind2, hch]⟩

/-- The weapon extraction of the concrete scenario in the spec. -/
def sampleWeaponData : WeaponData where
  name := some "Alpha"
  name_en := none
  weapon_type := none
  rarity := some 5
  base_attack := some 46
  secondary_stat := none
  secondary_stat_value := none
  description := none
  passive_name := none
  passive_description := none
  source := none

/-- Witness for `reconcile_create_then_skip` from the empty store. -/
theorem reconcile_create_then_skip_witness :
    (storeSingleWeapon 1 ([], resetStats) sampleWeaponData).2 =
      { resetStats with created := 1 } ∧
    (storeSingleWeapon 2 (storeSingleWeapon 1 ([], resetStats) sampleWeaponData)
        sampleWeaponData).2 =
      { resetStats with created := 1, skipped := 1 } ∧
    (storeSingleWeapon 2 (storeSingleWeapon 1 ([], resetStats) sampleWeaponData)
        sampleWeaponData).1 =
      (storeSingleWeapon 1 ([], resetStats) sampleWeaponData).1 :=
  reconcile_create_then_skip [] resetStats 1 2 sampleWeaponData "Alpha"
    rfl (by decide) rfl

/-- Claim C5 counterexample: a run over the single target "Alpha" whose
scrape fails (`scrape_character` returns nothing, so the record never
reaches the storage layer) returns counters summing to 0, not to the 1
target attempted — failed targets appear in no counter of the returned
statistics. -/
theorem sync_total_misses_failed_targets :
    ((runCharacterScraping (fun _ => none) ["Alpha"] [] 0).2).total = 0 ∧
    ¬ (((runCharacterScraping (fun _ => none) ["Alpha"] [] 0).2).total =
        (["Alpha"] : List String).length) := by
  decide

/-- Claim C5 (amended): the returned accumulator of a run satisfies
`created + updated + skipped + errors = number of successfully scraped
records handed to the storage step`, which is at most — and only when
every target scrapes successfully equal to — the number of targets
attempted; equivalently, `store_characters` starting from freshly reset
counters returns counts summing to the length of the list it is
given. -/
theorem sync_outcome_accounting (scrapeResult : String → Option CharData)
    (names : List String) (store : List Character) (now : Nat)
    (chars : List CharData) :
    ((runCharacterScraping scrapeResult names store now).2).total =
      (scrapeCharacters scrapeResult names).length ∧
    ((runCharacterScraping scrapeResult names store now).2).total ≤
      names.length ∧
    ((storeCharacters resetStats store now chars).2).total = chars.length := by
  have hbase := storeCharacters_total (scrapeCharacters scrapeResult names)
    resetStats store now
  have hc := storeCharacters_total chars resetStats store now
  have hzero : resetStats.total = 0 := rfl
  refine ⟨?_, ?_, ?_⟩
  · unfold runCharacterScraping
    rw [hbase, hzero, Nat.zero_add]
  · unfold runCharacterScraping
    rw [hbase, hzero, Nat.zero_add]
    simpa [scrapeCharacters] using List.length_filterMap_le scrapeResult names
  · rw [hc, hzero, Nat.zero_add]

/-- Scrape oracle that succeeds on "A" and fails on every other name. -/
def sampleScrapeResult : String → Option CharData :=
  fun n => if n = "A" then some nullCharData else none

/-- Witness for `sync_outcome_accounting`: of the two targets, only "A"
scrapes, so the returned counters sum to 1 of the 2 attempted. -/
theorem sync_outcome_accounting_witness :
    ((runCharacterScraping sampleScrapeResult ["A", "B"] [] 0).2).total = 1 ∧
    ((runCharacterScraping sampleScrapeResult ["A", "B"] [] 0).2).total ≤ 2 := by
  have h := sync_outcome_accounting sampleScrapeResult ["A", "B"] [] 0 []
  exact ⟨by rw [h.1]; decide, h.2.1⟩

/-- Claim C9: `store_weapons` and `store_artifacts` reset the counters
on entry, so their result is independent of the prior accumulator
contents and sums to the length of the list passed to that call, while
`store_characters` keeps accumulating: its returned counters sum to the
incoming total plus the batch length, so a second call on the same
service reports counts accumulated across calls. -/
theorem reset_stats_behaviour (s1 s2 : SyncStats) (wstore : List Weapon)
    (astore : List ArtifactSet) (cstore : List Character) (now : Nat)
    (ws : List WeaponData) (arts : List ArtifactData) (cs : List CharData) :
    (storeWeapons s1 wstore now ws).2 = (storeWeapons s2 wstore now ws).2 ∧
    ((storeWeapons s1 wstore now ws).2).total = ws.length ∧
    (storeArtifacts s1 astore now arts).2 =
      (storeArtifacts s2 astore now arts).2 ∧
    ((storeArtifacts s1 astore now arts).2).total = arts.length ∧
    ((storeCharacters s1 cstore now cs).2).total = s1.total + cs.length := by
  refine ⟨rfl, ?_, rfl, ?_, storeCharacters_total cs s1 cstore now⟩
  · have h := storeWeaponsFold_total ws resetStats wstore now
    simpa [storeWeapons, resetStats, SyncStats.total] using h
  · have h := storeArtifactsFold_total arts resetStats astore now
    simpa [storeArtifacts, resetStats, SyncStats.total] using h

/-- Witness for `reset_stats_behaviour` on dirty incoming counters. -/
theorem reset_stats_behaviour_witness :
    (storeWeapons ⟨4, 3, 2, 1⟩ [] 0 [sampleWeaponData]).2 =
      (storeWeapons resetStats [] 0 [sampleWeaponData]).2 ∧
    ((storeWeapons ⟨4, 3, 2, 1⟩ [] 0 [sampleWeaponData]).2).total = 1 ∧
    ((storeCharacters ⟨4, 3, 2, 1⟩ [] 0 [nullCharData]).2).total = 11 := by
  have h := reset_stats_behaviour ⟨4, 3, 2, 1⟩ resetStats [] [] [] 0
    [sampleWeaponData] [] [nullCharData]
  exact ⟨h.1, h.2.1, h.2.2.2.2⟩

/-- Claim C10: a scraped record whose name is absent or empty is counted
as skipped — not as an error — and the store is not consulted or
modified, for characters and weapons alike. -/
theorem missing_name_counts_skipped (now : Nat) (store : List Character)
    (wstore : List Weapon) (stats wstats : SyncStats) (d : CharData)
    (wd : WeaponData) (hd : d.name = none ∨ d.name = some "")
    (hwd : wd.name = none ∨ wd.name = some "") :
    storeSingleCharacter now (store, stats) d =
      (store, { stats with skipped := stats.skipped + 1 }) ∧
    storeSingleWeapon now (wstore, wstats) wd =
      (wstore, { wstats with skipped := wstats.skipped + 1 }) := by
  constructor
  · rcases hd with h | h <;> simp [storeSingleCharacter, h]
  · rcases hwd with h | h <;> simp [storeSingleWeapon, h]

/-- A character extraction with no name at all. -/
def noNameCharData : CharData :=
  { nullCharData with name := none }

/-- A weapon extraction with an empty name. -/
def emptyNameWeaponData : WeaponData :=
  { sampleWeaponData with name := some "" }

/-- Witness for `missing_name_counts_skipped`. -/
theorem missing_name_counts_skipped_witness :
    storeSingleCharacter 0 ([sampleCharacter], resetStats) noNameCharData =
      ([sampleCharacter], { resetStats with skipped := 1 }) ∧
    storeSingleWeapon 0 ([sampleWeapon], resetStats) emptyNameWeaponData =
      ([sampleWeapon], { resetStats with skipped := 1 }) :=
  missing_name_counts_skipped 0 [sampleCharacter] [sampleWeapon] resetStats
    resetStats noNameCharData emptyNameWeaponData (Or.inl rfl) (Or.inr rfl)
